import Mathlib

/-!
Verification of the node-monitor metrics bridge against its specification.

The JavaScript sources are shallowly embedded: JS numbers appearing in the
metric formulas are modelled as rationals, byte counts and core counts as
naturals, fallible asynchronous calls as `Except` values, and the JSON
objects produced by the services as Lean structures.  Each definition
mirrors one function of the repository; the theorems settle the frozen
claims about them.
-/

namespace NodeMonitor

/-- JavaScript `Math.round`: rounds to the nearest integer, halves towards
positive infinity. -/
def jsRound (x : ℚ) : ℤ := Int.floor (x + 1 / 2)

/-- The idiom `Math.round(x * 100) / 100` used throughout the services to
round a percentage to two decimal places. -/
def round2 (x : ℚ) : ℚ := (jsRound (x * 100) : ℚ) / 100

/-! ## Docker container stats (src/src/services/docker-monitor.js) -/

/-- The `cpu_usage` object inside a Docker stats sample. -/
structure CpuUsage where
  total_usage : ℚ
deriving DecidableEq

/-- The `cpu_stats` block of a Docker stats sample. -/
structure CpuStatsBlock where
  cpu_usage : CpuUsage
  system_cpu_usage : ℚ
  online_cpus : ℚ
deriving DecidableEq

/-- The `precpu_stats` block of a Docker stats sample. -/
structure PreCpuStatsBlock where
  cpu_usage : CpuUsage
  system_cpu_usage : ℚ
deriving DecidableEq

/-- The `memory_stats` block of a Docker stats sample.  The JS code reads
`usage || 0` and `limit || 0`; absent fields are modelled as 0 directly. -/
structure MemoryStats where
  usage : ℕ
  limit : ℕ
deriving DecidableEq

/-- One entry of the `networks` map of a Docker stats sample.  The JS code
reads `rx_bytes || 0`; absent fields are modelled as 0 directly. -/
structure NetworkEntry where
  rx_bytes : ℕ
  tx_bytes : ℕ
deriving DecidableEq

/-- One entry of `blkio_stats.io_service_bytes_recursive`. -/
structure BlkioEntry where
  op : String
  value : ℕ
deriving DecidableEq

/-- A raw Docker stats sample, as consumed by `formatContainerStats`.
`networks` may be absent (`none`), as may the blkio entry list. -/
structure ContainerStatsRaw where
  cpu_stats : CpuStatsBlock
  precpu_stats : PreCpuStatsBlock
  memory_stats : MemoryStats
  networks : Option (List NetworkEntry)
  io_service_bytes_recursive : Option (List BlkioEntry)
deriving DecidableEq

/-- The `cpu` section of a formatted stats object. -/
structure FormattedCpu where
  usage : ℚ
  system : ℚ
deriving DecidableEq

/-- The `memory` section of a formatted stats object. -/
structure FormattedMemory where
  usage : ℕ
  limit : ℕ
  percentage : ℚ
deriving DecidableEq

/-- The result of `formatContainerStats`: `network` is the `(rx, tx)` pair,
`io` the `(read, write)` pair. -/
structure FormattedStats where
  cpu : FormattedCpu
  memory : FormattedMemory
  network : ℕ × ℕ
  io : ℕ × ℕ
deriving DecidableEq

/-- `calculateNetworkStats(networks)`: sums `rx_bytes` and `tx_bytes` over
all network entries via `Object.values(...).reduce`, returning zeros when
`networks` is absent. -/
def calculateNetworkStats (networks : Option (List NetworkEntry)) : ℕ × ℕ :=
  match networks with
  | none => (0, 0)
  | some ns => ns.foldl (fun acc n => (acc.1 + n.rx_bytes, acc.2 + n.tx_bytes)) (0, 0)

/-- `formatContainerStats(stats)` of docker-monitor.js (both variants share
this body verbatim). -/
def formatContainerStats (stats : ContainerStatsRaw) : FormattedStats :=
  let cpuDelta := stats.cpu_stats.cpu_usage.total_usage -
    stats.precpu_stats.cpu_usage.total_usage
  let systemDelta := stats.cpu_stats.system_cpu_usage -
    stats.precpu_stats.system_cpu_usage
  let cpuUsage := if systemDelta > 0 then
    (cpuDelta / systemDelta) * stats.cpu_stats.online_cpus * 100 else 0
  { cpu :=
      { usage := round2 cpuUsage
        system := round2 systemDelta }
    memory :=
      { usage := stats.memory_stats.usage
        limit := stats.memory_stats.limit
        percentage := if stats.memory_stats.limit ≠ 0 then
            round2 ((stats.memory_stats.usage : ℚ) / (stats.memory_stats.limit : ℚ) * 100)
          else 0 }
    network := calculateNetworkStats stats.networks
    io :=
      ((((stats.io_service_bytes_recursive.getD []).find?
          (fun e => decide (e.op = "Read"))).map BlkioEntry.value).getD 0,
       (((stats.io_service_bytes_recursive.getD []).find?
          (fun e => decide (e.op = "Write"))).map BlkioEntry.value).getD 0) }

/-- The all-zero stats object that `getContainerStats` returns when Docker
is unavailable or the stats call fails. -/
def emptyContainerStats : FormattedStats :=
  { cpu := { usage := 0, system := 0 }
    memory := { usage := 0, limit := 0, percentage := 0 }
    network := (0, 0)
    io := (0, 0) }

/-- A concrete stats sample with cpu_usage_delta = 200, system_cpu_delta =
1000 and online_cpus = 4, exercising the CPU percentage formula. -/
def exampleCpuStats : ContainerStatsRaw :=
  { cpu_stats :=
      { cpu_usage := { total_usage := 200 }
        system_cpu_usage := 1000
        online_cpus := 4 }
    precpu_stats :=
      { cpu_usage := { total_usage := 0 }
        system_cpu_usage := 0 }
    memory_stats := { usage := 0, limit := 0 }
    networks := none
    io_service_bytes_recursive := none }

/-! ## System monitor (src/src/services/system-monitor.js) -/

/-- One entry of the `si.fsSize()` result, as read by the system monitor. -/
structure DiskEntry where
  fs : String
  mount : String
  fsType : String
  size : ℕ
  used : ℕ
  available : ℕ
deriving DecidableEq

/-- The `disk` section of the system overview, the result of
`aggregateDiskStats`. -/
structure DiskSummary where
  total : ℕ
  used : ℕ
  free : ℕ
  usage : ℚ
deriving DecidableEq

/-- The summary object built from a chosen filesystem entry `r`:
`{total: r.size, used: r.used, free: r.available, usage: round2(used/size*100)}`.
When `size` is 0 the JS expression is `NaN` and the trailing `|| 0`
coalesces it to 0, modelled by the guard. -/
def diskSummaryOfEntry (r : DiskEntry) : DiskSummary :=
  { total := r.size
    used := r.used
    free := r.available
    usage := if r.size ≠ 0 then round2 ((r.used : ℚ) / (r.size : ℚ) * 100) else 0 }

/-- `aggregateDiskStats(disks)`: picks the entry mounted at "/" when one
exists (`disks.find(d => d.mount === '/')`), else the first entry
(`|| disks[0]`); an empty list leaves `root` undefined and every field
coalesces to 0 via `|| 0`. -/
def aggregateDiskStats (disks : List DiskEntry) : DiskSummary :=
  match (disks.find? (fun d => decide (d.mount = "/"))).orElse (fun _ => disks.head?) with
  | some r => diskSummaryOfEntry r
  | none => { total := 0, used := 0, free := 0, usage := 0 }

/-- The `si.currentLoad()` result: overall load percentage and the per-core
load list (only its length is used by the overview). -/
structure RawCurrentLoad where
  currentLoad : ℚ
  cpus : List ℚ
deriving DecidableEq

/-- The `si.mem()` result fields read by the overview. -/
structure RawMem where
  total : ℕ
  used : ℕ
  free : ℕ
deriving DecidableEq

/-- The `si.osInfo()` result, bound to `load` in the overview and read for
hostname, uptime and the three load averages. -/
structure RawOsInfo where
  hostname : String
  uptime : ℕ
  avgLoad1 : ℚ
  avgLoad5 : ℚ
  avgLoad15 : ℚ
deriving DecidableEq

/-- The `si.cpuTemperature()` result; `main` may be absent (`temp.main || 0`). -/
structure RawTemp where
  main : Option ℚ
deriving DecidableEq

/-- The five concurrently awaited source samples feeding `getSystemOverview`. -/
structure RawSystemSample where
  cpu : RawCurrentLoad
  mem : RawMem
  disk : List DiskEntry
  osinfo : RawOsInfo
  temp : RawTemp
deriving DecidableEq

/-- The `cpu` section of the system overview. -/
structure OverviewCpu where
  usage : ℚ
  cores : ℕ
  temperature : ℚ
deriving DecidableEq

/-- The `memory` section of the system overview.  When `total` is 0 the JS
usage expression is `NaN`; the guard keeps the model total (that case does
not occur for a real memory sample). -/
structure OverviewMemory where
  total : ℕ
  used : ℕ
  free : ℕ
  usage : ℚ
deriving DecidableEq

/-- The object returned by `getSystemOverview` on success. -/
structure SystemOverview where
  hostname : String
  uptime : ℕ
  loadAverage : List ℚ
  cpu : OverviewCpu
  memory : OverviewMemory
  disk : DiskSummary
deriving DecidableEq

/-- The overview object literal of `getSystemOverview`, built from a
successfully awaited sample. -/
def buildOverview (s : RawSystemSample) : SystemOverview :=
  { hostname := s.osinfo.hostname
    uptime := s.osinfo.uptime
    loadAverage := [s.osinfo.avgLoad1, s.osinfo.avgLoad5, s.osinfo.avgLoad15]
    cpu :=
      { usage := round2 s.cpu.currentLoad
        cores := s.cpu.cpus.length
        temperature := s.temp.main.getD 0 }
    memory :=
      { total := s.mem.total
        used := s.mem.used
        free := s.mem.free
        usage := if s.mem.total ≠ 0 then
            round2 ((s.mem.used : ℚ) / (s.mem.total : ℚ) * 100)
          else 0 }
    disk := aggregateDiskStats s.disk }

/-- `getSystemOverview()`: on success returns the overview object; when the
awaited `Promise.all` rejects the catch block logs and rethrows
(`throw error`), so the failure propagates to the caller. -/
def getSystemOverview (src : Except String RawSystemSample) :
    Except String SystemOverview :=
  match src with
  | Except.error e => Except.error e
  | Except.ok s => Except.ok (buildOverview s)

/-! ## Docker monitor operations (src/src/services/docker-monitor.js) -/

/-- A raw entry of `docker.listContainers({all: true})`, with the fields the
monitor reads.  Dates are kept as their raw numeric/string forms; ISO-8601
rendering of `Date` objects is outside the embedding. -/
structure RawContainer where
  rawId : String
  names : List String
  image : String
  state : String
  status : String
  ports : List String
  created : ℕ
  startedAt : String
deriving DecidableEq

/-- JavaScript `String.replace` with a string pattern: replaces only the
first occurrence of `pat` by `repl`. -/
def replaceFirst (s pat repl : String) : String :=
  match s.splitOn pat with
  | [] => s
  | [s0] => s0
  | s0 :: s1 :: rest => s0 ++ repl ++ String.intercalate pat (s1 :: rest)

/-- One element of the list returned by `listContainers`. -/
structure ContainerInfo where
  id : String
  name : String
  image : String
  status : String
  state : String
  ports : List String
  created : ℕ
  started : Option String
deriving DecidableEq

/-- The object literal built for each container by `listContainers`.
`created` keeps `Created * 1000` (epoch milliseconds); `started` is the raw
`StartedAt` string when the container is running, else `null`. -/
def mkContainerInfo (c : RawContainer) : ContainerInfo :=
  { id := c.rawId.take 12
    name := replaceFirst (c.names.headD "") "/" ""
    image := c.image
    status := c.state
    state := c.status
    ports := c.ports
    created := c.created * 1000
    started := if c.state = "running" then some c.startedAt else none }

/-- `listContainers()` of the primary docker-monitor variant: returns `[]`
when Docker is unavailable, maps the raw list on success, and catches any
source failure, returning `[]` instead of throwing. -/
def listContainers (dockerAvailable : Bool)
    (src : Except String (List RawContainer)) : List ContainerInfo :=
  if !dockerAvailable then []
  else
    match src with
    | Except.error _ => []
    | Except.ok cs => cs.map mkContainerInfo

/-- `getContainerStats(id)` of the primary docker-monitor variant: returns
the all-zero stats object when Docker is unavailable or the stats call
fails, and formats the sample on success. -/
def getContainerStats (dockerAvailable : Bool)
    (src : Except String ContainerStatsRaw) : FormattedStats :=
  if !dockerAvailable then emptyContainerStats
  else
    match src with
    | Except.error _ => emptyContainerStats
    | Except.ok s => formatContainerStats s

/-- `listContainers()` of the second docker-monitor variant (the one with no
availability probe): on a source failure the catch block logs and rethrows
(`throw error`), so the failure propagates. -/
def listContainersV2 (src : Except String (List RawContainer)) :
    Except String (List ContainerInfo) :=
  match src with
  | Except.error e => Except.error e
  | Except.ok cs => Except.ok (cs.map mkContainerInfo)

/-- `getContainerStats(id)` of the second docker-monitor variant: rethrows
on failure. -/
def getContainerStatsV2 (src : Except String ContainerStatsRaw) :
    Except String FormattedStats :=
  match src with
  | Except.error e => Except.error e
  | Except.ok s => Except.ok (formatContainerStats s)

/-! ## WebSocket broadcast loop (src/src/services/cache-service.js, WebSocketService) -/

/-- A member of the `clients` set: a WebSocket connection with its
`readyState === WebSocket.OPEN` liveness flag. -/
structure Subscriber where
  id : ℕ
  readyStateOpen : Bool
deriving DecidableEq

/-- The message envelope assembled on a broadcast tick:
`{type: 'metrics_update', timestamp, data: {system, docker}}`.
`msgType` holds the JSON "type" field. -/
structure Envelope where
  msgType : String
  timestamp : String
  system : SystemOverview
  docker : List ContainerInfo
deriving DecidableEq

/-- The observable outcome of one timer tick: the message broadcast (if
any) and how many adapter polls were issued. -/
structure TickResult where
  message : Option Envelope
  adapterPolls : ℕ
deriving DecidableEq

/-- One tick of `startMetricsBroadcast`: an empty client set returns before
any adapter call; otherwise both adapters are polled via `Promise.all`.
`listContainers` never rejects, but a `getSystemOverview` rejection makes
`Promise.all` reject, landing in the catch block which logs and sends
nothing. -/
def broadcastTick (clients : List Subscriber) (now : String)
    (sysSrc : Except String RawSystemSample) (dockerAvailable : Bool)
    (dockerSrc : Except String (List RawContainer)) : TickResult :=
  if clients.isEmpty then { message := none, adapterPolls := 0 }
  else
    let dockerData := listContainers dockerAvailable dockerSrc
    match getSystemOverview sysSrc with
    | Except.error _ => { message := none, adapterPolls := 2 }
    | Except.ok sys =>
        { message := some
            { msgType := "metrics_update"
              timestamp := now
              system := sys
              docker := dockerData }
          adapterPolls := 2 }

/-- One step of the `clients.forEach` body of `broadcast`: an open client
is sent the message (recorded in the second component), a non-open client
is deleted from the registry (first component). -/
def broadcastStep (st : List Subscriber × List Subscriber) (c : Subscriber) :
    List Subscriber × List Subscriber :=
  if c.readyStateOpen then (st.1, st.2 ++ [c])
  else (st.1.filter (fun x => decide (x ≠ c)), st.2)

/-- `broadcast(data)` of the WebSocket service: iterates the current client
set, sending to open clients and pruning the rest.  Returns the registry
after the iteration and the list of clients the message was sent to. -/
def broadcast (clients : List Subscriber) : List Subscriber × List Subscriber :=
  clients.foldl broadcastStep (clients, [])

/-! ## Cache (src/src/services/cache-service.js, CacheService) -/

/-- Modelled from the spec: the TTL key-value store behaviour of the
third-party node-cache instance wrapped by `CacheService`; the store
itself is not part of this repository.  An entry carries its key, value
and absolute expiry time; a value set with ttl `T` is visible to `get`
for at least `T` and treated as absent after `T` elapses, whether or not
the entry has been reclaimed. -/
structure CacheEntry (α : Type) where
  key : String
  value : α
  expiry : ℕ
deriving DecidableEq

/-- Modelled from the spec: `set(key, value, ttl)` at time `now` stores the
value with expiry `now + ttl`, overwriting any previous entry for the key. -/
def cacheSet {α : Type} (st : List (CacheEntry α)) (k : String) (v : α)
    (ttl now : ℕ) : List (CacheEntry α) :=
  { key := k, value := v, expiry := now + ttl } ::
    st.filter (fun e => decide (e.key ≠ k))

/-- Modelled from the spec: `get(key)` at time `now` returns the stored
value while `now` has not passed the entry expiry and absent afterwards;
stale entries need not be reclaimed to be invisible. -/
def cacheGet {α : Type} (st : List (CacheEntry α)) (k : String) (now : ℕ) :
    Option α :=
  match st.find? (fun e => decide (e.key = k)) with
  | some e => if now ≤ e.expiry then some e.value else none
  | none => none

/-! ## Auth middleware (middleware/auth.js) -/

/-- The outcome of the auth middleware on a request: an early JSON error
response with its HTTP status, or falling through to `next()`. -/
inductive AuthResult
  | respond (status : ℕ) (errMsg : String)
  | next
deriving DecidableEq

/-- JavaScript falsiness of an optional environment string: `!s` holds when
the variable is unset or set to the empty string. -/
def optFalsy (s : Option String) : Bool := (s.getD "").isEmpty

/-- `authMiddleware(req, res, next)`: 500 when `API_KEY` is falsy, 401 when
the Authorization header is missing or lacks the `Bearer ` scheme prefix,
401 when the presented token differs from the key, else `next()`.  The
token is `authHeader.substring(7)`. -/
def authMiddleware (apiKey : Option String) (authHeader : Option String) :
    AuthResult :=
  if optFalsy apiKey then AuthResult.respond 500 "Server configuration error"
  else
    match authHeader with
    | none => AuthResult.respond 401 "Missing or invalid authorization header"
    | some h =>
        if !h.startsWith ("Bearer ") then
          AuthResult.respond 401 "Missing or invalid authorization header"
        else if h.drop 7 ≠ apiKey.getD "" then
          AuthResult.respond 401 "Invalid API key"
        else AuthResult.next

/-! ## Route success envelopes (routes/system, routes/docker) -/

/-- The payload-serving API routes whose success responses the spec
describes. -/
inductive ApiRoute
  | systemOverview
  | systemCpu
  | systemMemory
  | systemDisk
  | systemNetwork
  | dockerStatus
  | dockerContainers
  | dockerContainerStats
  | dockerContainerLogs
deriving DecidableEq

/-- The shape of a success JSON body: whether it carries `success: true`, a
`data` field, and a top-level `timestamp` field. -/
structure SuccessShape where
  success : Bool
  hasData : Bool
  hasTimestamp : Bool
deriving DecidableEq

/-- The body each handler passes to `res.json` on success.  Only
`GET /api/system/overview` sends `{success: true, data, timestamp}`; every
other handler sends `{success: true, data}` (the docker `/status` route
carries a timestamp inside `data`, not at the top level). -/
def successShape : ApiRoute → SuccessShape
  | ApiRoute.systemOverview => { success := true, hasData := true, hasTimestamp := true }
  | ApiRoute.systemCpu => { success := true, hasData := true, hasTimestamp := false }
  | ApiRoute.systemMemory => { success := true, hasData := true, hasTimestamp := false }
  | ApiRoute.systemDisk => { success := true, hasData := true, hasTimestamp := false }
  | ApiRoute.systemNetwork => { success := true, hasData := true, hasTimestamp := false }
  | ApiRoute.dockerStatus => { success := true, hasData := true, hasTimestamp := false }
  | ApiRoute.dockerContainers => { success := true, hasData := true, hasTimestamp := false }
  | ApiRoute.dockerContainerStats => { success := true, hasData := true, hasTimestamp := false }
  | ApiRoute.dockerContainerLogs => { success := true, hasData := true, hasTimestamp := false }

/-! ## Concrete inputs used to instantiate hypotheses -/

/-- The filesystem entry mounted at the root. -/
def exampleRootEntry : DiskEntry :=
  { fs := "/dev/sda2", mount := "/", fsType := "ext4",
    size := 1000, used := 250, available := 750 }

/-- A filesystem entry mounted elsewhere, listed before the root entry. -/
def exampleBootEntry : DiskEntry :=
  { fs := "/dev/sda1", mount := "/boot", fsType := "vfat",
    size := 100, used := 10, available := 90 }

/-- A concrete system sample whose filesystem list holds a non-root entry
followed by the root mount. -/
def exampleSample : RawSystemSample :=
  { cpu := { currentLoad := 12, cpus := [6, 18] }
    mem := { total := 1000, used := 400, free := 600 }
    disk := [exampleBootEntry, exampleRootEntry]
    osinfo := { hostname := "edge-node", uptime := 3600,
                avgLoad1 := 1, avgLoad5 := 2, avgLoad15 := 3 }
    temp := { main := some 42 } }

/-! ## Theorems -/

/-- C1: the reported container CPU usage equals
(cpu_usage_delta / system_cpu_delta) × online_cpus × 100 rounded to two
decimal places when the system delta is positive and 0 otherwise, and the
sample with cpu_usage_delta = 200, system_cpu_delta = 1000, online_cpus = 4
yields 80. -/
theorem container_cpu_percentage (stats : ContainerStatsRaw) :
    ((formatContainerStats stats).cpu.usage =
      if 0 < stats.cpu_stats.system_cpu_usage - stats.precpu_stats.system_cpu_usage then
        round2 ((stats.cpu_stats.cpu_usage.total_usage -
            stats.precpu_stats.cpu_usage.total_usage) /
          (stats.cpu_stats.system_cpu_usage - stats.precpu_stats.system_cpu_usage) *
          stats.cpu_stats.online_cpus * 100)
      else 0)
    ∧ (formatContainerStats exampleCpuStats).cpu.usage = 80 := by
  constructor
  · by_cases h : 0 < stats.cpu_stats.system_cpu_usage - stats.precpu_stats.system_cpu_usage
    · simp [formatContainerStats, h]
    · simp [formatContainerStats, h, round2, jsRound]
      norm_num
  · norm_num [formatContainerStats, exampleCpuStats, round2, jsRound]

/-- C8: the reported container memory percentage equals (usage / limit) × 100
rounded to two decimal places when the limit is positive and 0 when the
limit is 0. -/
theorem container_memory_percentage (stats : ContainerStatsRaw) :
    (formatContainerStats stats).memory.percentage =
      if 0 < stats.memory_stats.limit then
        round2 ((stats.memory_stats.usage : ℚ) / (stats.memory_stats.limit : ℚ) * 100)
      else 0 := by
  by_cases h : stats.memory_stats.limit = 0 <;>
    simp [formatContainerStats, h, Nat.pos_iff_ne_zero]

/-- Folding the network reducer starting from an arbitrary accumulator adds
the per-device sums componentwise. -/
theorem networkStats_foldl (ns : List NetworkEntry) (a b : ℕ) :
    ns.foldl (fun acc n => (acc.1 + n.rx_bytes, acc.2 + n.tx_bytes)) (a, b) =
      (a + (ns.map (fun n => n.rx_bytes)).sum, b + (ns.map (fun n => n.tx_bytes)).sum) := by
  induction ns generalizing a b with
  | nil => simp
  | cons n t ih => simp [ih, Nat.add_assoc]

/-- C9: the overview's root-filesystem summary is built from the entry
mounted at "/" when one exists and from the first entry otherwise, and the
per-container network aggregate sums rx_bytes and tx_bytes over all
networks. -/
theorem root_fs_and_network_aggregation (s : RawSystemSample) (_hne : s.disk ≠ []) :
    ((∀ r, s.disk.find? (fun d => decide (d.mount = "/")) = some r →
        (buildOverview s).disk = diskSummaryOfEntry r)
      ∧ (s.disk.find? (fun d => decide (d.mount = "/")) = none →
          ∀ r, s.disk.head? = some r → (buildOverview s).disk = diskSummaryOfEntry r))
    ∧ ∀ ns : List NetworkEntry,
        calculateNetworkStats (some ns) =
          ((ns.map (fun n => n.rx_bytes)).sum, (ns.map (fun n => n.tx_bytes)).sum) := by
  refine ⟨⟨?_, ?_⟩, ?_⟩
  · intro r hr
    simp [buildOverview, aggregateDiskStats, hr, Option.orElse]
  · intro hn r hr
    simp [buildOverview, aggregateDiskStats, hn, hr, Option.orElse]
  · intro ns
    simpa using networkStats_foldl ns 0 0

/-- C9 witness: on the concrete sample the summary is built from the root
entry even though a non-root entry comes first. -/
theorem root_fs_and_network_witness :
    (buildOverview exampleSample).disk = diskSummaryOfEntry exampleRootEntry :=
  (root_fs_and_network_aggregation exampleSample (by decide)).1.1
    exampleRootEntry (by decide)

/-- C2 counterexample: with one open subscriber, a system-adapter failure
(the docker source healthy) makes the tick send nothing at all — the tick
is dropped although only a single metric family failed. -/
theorem system_poll_failure_drops_tick :
    (broadcastTick [{ id := 1, readyStateOpen := true }] ("t0")
        (Except.error ("si failure")) true (Except.ok [])).message = none := rfl

/-- C2 (amended): with at least one subscriber, a failure of the container
adapter's underlying source does not drop the tick — the envelope goes out
with the docker section empty and the system section intact; a failure of
the system adapter, however, drops the whole tick. -/
theorem docker_poll_failure_degrades_not_drops (clients : List Subscriber)
    (h : clients ≠ []) (now : String) (sample : RawSystemSample)
    (avail : Bool) (e e' : String) :
    (broadcastTick clients now (Except.ok sample) avail (Except.error e)).message =
      some { msgType := "metrics_update", timestamp := now,
             system := buildOverview sample, docker := [] }
    ∧ (broadcastTick clients now (Except.error e') avail (Except.ok [])).message =
      none := by
  have hne : clients.isEmpty = false := by
    cases clients with
    | nil => exact absurd rfl h
    | cons a t => rfl
  constructor
  · cases avail <;> simp [broadcastTick, hne, getSystemOverview, listContainers]
  · simp [broadcastTick, hne, getSystemOverview]

/-- C2 witness: concrete instantiation with one open subscriber. -/
theorem docker_poll_failure_witness :
    (broadcastTick [{ id := 0, readyStateOpen := true }] ("t1")
        (Except.ok exampleSample) true (Except.error ("docker down"))).message =
      some { msgType := "metrics_update", timestamp := "t1",
             system := buildOverview exampleSample, docker := [] }
    ∧ (broadcastTick [{ id := 0, readyStateOpen := true }] ("t1")
        (Except.error ("si down")) true (Except.ok [])).message = none :=
  docker_poll_failure_degrades_not_drops [{ id := 0, readyStateOpen := true }]
    (by decide) ("t1") exampleSample true ("docker down") ("si down")

/-- C3 counterexample: a failing underlying source makes `getSystemOverview`
rethrow — the error is propagated to the caller, not replaced by an
empty/zero snapshot. -/
theorem system_overview_propagates_failure :
    getSystemOverview (Except.error ("EACCES")) = Except.error ("EACCES") := rfl

/-- C3 (amended): the primary docker-monitor operations return empty/zero
snapshots when Docker is unavailable or the source call fails, while
`getSystemOverview` and the second docker-monitor variant's operations
propagate the source failure to their callers. -/
theorem adapter_failure_snapshots (avail : Bool) (e : String)
    (anyContainers : Except String (List RawContainer))
    (anyStats : Except String ContainerStatsRaw) :
    listContainers avail (Except.error e) = []
    ∧ getContainerStats avail (Except.error e) = emptyContainerStats
    ∧ listContainers false anyContainers = []
    ∧ getContainerStats false anyStats = emptyContainerStats
    ∧ getSystemOverview (Except.error e) = Except.error e
    ∧ listContainersV2 (Except.error e) = Except.error e
    ∧ getContainerStatsV2 (Except.error e) = Except.error e := by
  refine ⟨?_, ?_, rfl, rfl, rfl, rfl, rfl⟩ <;> cases avail <;> rfl

/-- C4: a tick with an empty subscriber registry returns before polling —
no adapter call is made and no message is sent. -/
theorem tick_with_no_subscribers_skips_poll (now : String)
    (sysSrc : Except String RawSystemSample) (avail : Bool)
    (dockerSrc : Except String (List RawContainer)) :
    broadcastTick [] now sysSrc avail dockerSrc =
      { message := none, adapterPolls := 0 } := rfl

/-- C5 counterexample: the success body of `GET /api/system/cpu` carries no
top-level timestamp field. -/
theorem system_cpu_success_lacks_timestamp :
    (successShape ApiRoute.systemCpu).hasTimestamp = false := rfl

/-- C5 (amended): every success response wraps its payload as
`{success: true, data}`; only `GET /api/system/overview` additionally
carries a top-level timestamp. -/
theorem success_envelope_shape (r : ApiRoute) :
    (successShape r).success = true ∧ (successShape r).hasData = true
    ∧ ((successShape r).hasTimestamp = true ↔ r = ApiRoute.systemOverview) := by
  cases r <;> simp [successShape]

/-- C6: a value set with ttl `T` at time `s` is returned by an immediate
get, and a get performed after `T` has elapsed returns absent even though
the entry has not been reclaimed. -/
theorem cache_ttl_visibility {α : Type} (st : List (CacheEntry α))
    (k : String) (v : α) (ttl s now : ℕ) :
    cacheGet (cacheSet st k v ttl s) k s = some v
    ∧ (s + ttl < now → cacheGet (cacheSet st k v ttl s) k now = none) := by
  constructor
  · simp [cacheGet, cacheSet, List.find?, Nat.le_add_right]
  · intro h
    simp [cacheGet, cacheSet, List.find?, Nat.not_le.mpr h]

/-- C6 witness: concrete set/get pair on a fresh cache. -/
theorem cache_ttl_visibility_witness :
    cacheGet (cacheSet ([] : List (CacheEntry ℕ)) ("k") 7 5 100) ("k") 100 = some 7
    ∧ cacheGet (cacheSet ([] : List (CacheEntry ℕ)) ("k") 7 5 100) ("k") 110 = none :=
  ⟨(cache_ttl_visibility [] ("k") 7 5 100 110).1,
   (cache_ttl_visibility [] ("k") 7 5 100 110).2 (by decide)⟩

/-- The survival predicate of a broadcast iteration over `l`: a registry
member stays unless it equals some non-open client of `l`. -/
def keepAfter (l : List Subscriber) (x : Subscriber) : Bool :=
  l.all (fun c => c.readyStateOpen || decide (x ≠ c))

/-- The sent list accumulated by the broadcast fold: the open clients of
`l`, in iteration order, appended to the accumulator. -/
theorem broadcast_foldl_sent (l : List Subscriber)
    (init sent : List Subscriber) :
    (l.foldl broadcastStep (init, sent)).2 =
      sent ++ l.filter (fun c => c.readyStateOpen) := by
  induction l generalizing init sent with
  | nil => simp
  | cons c t ih =>
    by_cases hc : c.readyStateOpen <;>
      simp [broadcastStep, hc, ih, List.filter_cons]

/-- The registry left by the broadcast fold: the initial registry filtered
by survival. -/
theorem broadcast_foldl_registry (l : List Subscriber)
    (init sent : List Subscriber) :
    (l.foldl broadcastStep (init, sent)).1 = init.filter (keepAfter l) := by
  induction l generalizing init sent with
  | nil =>
    simp only [List.foldl_nil]
    exact (List.filter_eq_self.mpr (fun a _ => rfl)).symm
  | cons c t ih =>
    by_cases hc : c.readyStateOpen
    · rw [List.foldl_cons, broadcastStep, if_pos hc, ih]
      apply List.filter_congr
      intro x _
      simp [keepAfter, hc]
    · rw [List.foldl_cons, broadcastStep, if_neg hc, ih, List.filter_filter]
      apply List.filter_congr
      intro x _
      simp only [keepAfter, List.all_cons]
      cases hx : decide (x ≠ c) <;>
        simp [hx, Bool.eq_false_iff.mpr hc]

/-- C7: during a broadcast iteration a non-open subscriber is removed from
the registry and is not among the message recipients, while every open
subscriber receives the message; the iteration is a total function. -/
theorem broadcast_prunes_closed_delivers_open (clients : List Subscriber)
    (c : Subscriber) (hc : c ∈ clients) :
    (c.readyStateOpen = false →
        c ∉ (broadcast clients).1 ∧ c ∉ (broadcast clients).2)
    ∧ (c.readyStateOpen = true → c ∈ (broadcast clients).2) := by
  constructor
  · intro hcl
    constructor
    · rw [broadcast, broadcast_foldl_registry]
      intro hmem
      have hkeep := (List.mem_filter.mp hmem).2
      have := List.all_eq_true.mp hkeep c hc
      simp [hcl] at this
    · rw [broadcast, broadcast_foldl_sent]
      simp [List.mem_filter, hcl]
  · intro hop
    rw [broadcast, broadcast_foldl_sent]
    simp [List.mem_filter, hc, hop]

/-- C7 witness: in a registry with one open and one closed subscriber, the
closed one is pruned and receives nothing. -/
theorem broadcast_prune_witness :
    Subscriber.mk 2 false ∉ (broadcast [Subscriber.mk 1 true, Subscriber.mk 2 false]).1
    ∧ Subscriber.mk 2 false ∉ (broadcast [Subscriber.mk 1 true, Subscriber.mk 2 false]).2 :=
  (broadcast_prunes_closed_delivers_open
      [Subscriber.mk 1 true, Subscriber.mk 2 false]
      (Subscriber.mk 2 false) (by decide)).1 rfl

/-- C10: the auth middleware answers 500 whenever the configured API key is
falsy (unset or empty) regardless of the header, 401 when the header is
missing or lacks the `Bearer ` prefix, 401 when the presented token differs
from the key, and falls through to the next handler exactly when the token
equals the key. -/
theorem auth_middleware_taxonomy (apiKey authHeader : Option String) :
    (optFalsy apiKey = true →
        authMiddleware apiKey authHeader =
          AuthResult.respond 500 ("Server configuration error"))
    ∧ (optFalsy apiKey = false → authHeader = none →
        authMiddleware apiKey authHeader =
          AuthResult.respond 401 ("Missing or invalid authorization header"))
    ∧ (optFalsy apiKey = false → ∀ h, authHeader = some h →
        h.startsWith ("Bearer ") = false →
        authMiddleware apiKey authHeader =
          AuthResult.respond 401 ("Missing or invalid authorization header"))
    ∧ (optFalsy apiKey = false → ∀ h, authHeader = some h →
        h.startsWith ("Bearer ") = true → h.drop 7 ≠ apiKey.getD ("") →
        authMiddleware apiKey authHeader = AuthResult.respond 401 ("Invalid API key"))
    ∧ (authMiddleware apiKey authHeader = AuthResult.next ↔
        (optFalsy apiKey = false ∧ ∃ h, authHeader = some h ∧
          h.startsWith ("Bearer ") = true ∧ h.drop 7 = apiKey.getD (""))) := by
  refine ⟨?_, ?_, ?_, ?_, ?_⟩
  · intro hf
    simp [authMiddleware, hf]
  · intro hf hh
    simp [authMiddleware, hf, hh]
  · intro hf h hh hbs
    simp [authMiddleware, hf, hh, hbs]
  · intro hf h hh hbs hne
    simp [authMiddleware, hf, hh, hbs, hne]
  · constructor
    · intro he
      by_cases hf : optFalsy apiKey
      · simp [authMiddleware, hf] at he
      · cases hh : authHeader with
        | none => rw [hh] at he; simp [authMiddleware, hf] at he
        | some h =>
          rw [hh] at he
          by_cases hbs : h.startsWith ("Bearer ")
          · by_cases hdr : h.drop 7 = apiKey.getD ("")
            · exact ⟨Bool.eq_false_iff.mpr hf, h, rfl, hbs, hdr⟩
            · simp [authMiddleware, hf, hbs, hdr] at he
          · simp [authMiddleware, hf, hbs] at he
    · rintro ⟨hf, h, hh, hbs, hdr⟩
      simp [authMiddleware, hf, hh, hbs, hdr]

/-- C10 witness: an unset key yields the 500 configuration error response
regardless of the presented header. -/
theorem auth_middleware_witness :
    authMiddleware none (some ("Bearer sekret")) =
      AuthResult.respond 500 ("Server configuration error") :=
  (auth_middleware_taxonomy none (some ("Bearer sekret"))).1 (by decide)

end NodeMonitor
